import Mathlib

/-!
Verification development for the feed client components of this repository:
the reels client in src/unnamed/part_000 (paginated loader `loadMore`,
scroll handler `onScroll`, optimistic like toggle `onLike`, auth guard
`requireAuth`), the posts feed client in src/unnamed/part_001 (`FeedClient`
initial load with a liveness flag), and the reels client in
src/apps/web/app/reels/ReelsClient.tsx.

Machine integers of the source are JavaScript numbers; the arithmetic used
here (+1, -1, max with 0, absolute difference, comparisons) is exact on
integers, so counters and offsets are embedded as `Int`.  Optional JSON
fields are embedded as `Option`; the source's `?? 0`, `?? null` and
truthiness coercions are made explicit.
-/

/-- A reel as far as the like toggle is concerned (src/unnamed/part_000,
type `Reel`): `likesCount?: number` and `viewerHasLiked?: boolean` are
optional fields supplied by the server. -/
structure Reel where
  id : String
  likesCount : Option Int
  viewerHasLiked : Option Bool
deriving Repr, DecidableEq

/-- JavaScript truthiness of an optional boolean: `undefined` is falsy. -/
def jsBool (o : Option Bool) : Bool := o.getD false

/-- The effective likes count read by the source: `r.likesCount ?? 0`. -/
def likesVal (r : Reel) : Int := r.likesCount.getD 0

/-- The effective liked flag read by the source: `r.viewerHasLiked` under
JavaScript truthiness (`!r.viewerHasLiked` and `r.viewerHasLiked ? -1 : 1`
both treat `undefined` as `false`). -/
def likedVal (r : Reel) : Bool := jsBool r.viewerHasLiked

/-- One application of the optimistic like formula of `onLike`
(src/unnamed/part_000 lines 122-126, repeated verbatim at lines 138-142 and
152-156): negate `viewerHasLiked`, add -1 when previously liked and +1
otherwise, clamped below at zero. -/
def likeToggle (r : Reel) : Reel :=
  { r with
    viewerHasLiked := some (!likedVal r)
    likesCount := some (max 0 (likesVal r + (if likedVal r then -1 else 1))) }

/-- The `setItems(prev => prev.map(...))` update of `onLike`: toggle the
item whose id matches, leave every other item untouched. -/
def applyLike (items : List Reel) (reelId : String) : List Reel :=
  items.map fun r => if r.id = reelId then likeToggle r else r

/-- Outcome of the confirming `POST /reels/:id/like` request: `ok` is a 2xx
response, `httpError` a non-2xx response (`!res.ok`), `transportError` a
thrown fetch error. -/
inductive LikeOutcome
  | ok
  | httpError
  | transportError
deriving Repr, DecidableEq

/-- The session collaborator's state as read by part_000: `authed` is
`Boolean(me?.user?.id)` and `meLoading` the hook's loading flag. -/
structure AuthCtx where
  authed : Bool
  meLoading : Bool
deriving Repr, DecidableEq

/-- The `requireAuth` guard of src/unnamed/part_000 lines 107-113: `true`
(redirect to the sign-in path and abort) exactly when the viewer is
unauthenticated and session resolution has finished. -/
def requireAuth (a : AuthCtx) : Bool := !a.authed && !a.meLoading

/-- Observable result of one `onLike` invocation: the item list after the
handler finishes, whether the confirming POST was issued, and whether the
viewer was redirected to the sign-in path. -/
structure OnLikeResult where
  items : List Reel
  requestIssued : Bool
  redirectedToLogin : Bool
deriving Repr, DecidableEq

/-- The `onLike` handler of src/unnamed/part_000 lines 115-161: the auth
guard first; then the optimistic toggle; then the confirming POST, whose
failure (non-ok status or thrown error — both arms carry the identical
revert) reapplies the same toggle formula to the current state. -/
def onLike (a : AuthCtx) (items : List Reel) (reelId : String)
    (outcome : LikeOutcome) : OnLikeResult :=
  if requireAuth a then
    ⟨items, false, true⟩
  else
    let optimistic := applyLike items reelId
    match outcome with
    | .ok => ⟨optimistic, true, false⟩
    | .httpError => ⟨applyLike optimistic reelId, true, false⟩
    | .transportError => ⟨applyLike optimistic reelId, true, false⟩

/-- The JSON body of a successful `GET /reels` response as read by
`loadMore`: `data?.items ?? data?.reels ?? []` (already collapsed to the
item list it yields), `data?.nextCursor ?? null`, and the optional
`hasMore` boolean. -/
structure FeedResponse where
  items : List Reel
  nextCursor : Option String
  hasMore : Option Bool
deriving Repr, DecidableEq

/-- Outcome of one fetch in `loadMore`: a parsed success body, or a failure
(non-ok status whose message is the body text or an HTTP-status string, or
a thrown transport error; `e?.message` may be absent). -/
inductive FetchOutcome
  | success (data : FeedResponse)
  | failure (msg : Option String)
deriving Repr, DecidableEq

/-- The page state of src/unnamed/part_000: `items`, `loading`, `cursor`,
`hasMore`, `err`. -/
structure FeedState where
  items : List Reel
  loading : Bool
  cursor : Option String
  hasMore : Bool
  err : Option String
deriving Repr, DecidableEq

/-- JavaScript truthiness of a nullable string: `null` and the empty string
are falsy. -/
def jsTruthyStr (o : Option String) : Bool :=
  match o with
  | none => false
  | some s => s != ""

/-- One complete run of `loadMore(initial)` (src/unnamed/part_000 lines
38-67) whose fetch resolves with `outcome`, returning the resulting state
and whether a network request was issued.  The function has no internal
guard on `loading` or `hasMore`: it clears the error, sets `loading` on an
initial load, and always issues the request.  On success it replaces
(initial) or appends (non-initial) the items, stores the cursor, and sets
`hasMore := Boolean(data?.hasMore ?? nextCursor) && nextItems.length > 0`.
On failure it stores the message (`e?.message ?? "Error cargando reels"`)
and sets `hasMore := false`.  The `finally` clears `loading`. -/
def loadMore (initial : Bool) (st : FeedState) (outcome : FetchOutcome) :
    FeedState × Bool :=
  let st0 : FeedState :=
    { st with err := none, loading := if initial then true else st.loading }
  match outcome with
  | .success data =>
      let nextCursor := data.nextCursor
      let nextHasMore : Bool := data.hasMore.getD (jsTruthyStr nextCursor)
      ({ st0 with
          items := if initial then data.items else st0.items ++ data.items
          cursor := nextCursor
          hasMore := nextHasMore && decide (0 < data.items.length)
          loading := false }, true)
  | .failure msg =>
      ({ st0 with
          err := some (msg.getD "Error cargando reels")
          hasMore := false
          loading := false }, true)

/-- Absolute distance used by the scroll handler:
`Math.abs(node.offsetTop - top)`. -/
def distTo (top off : Int) : Int := |off - top|

/-- The running-minimum comparison of the scroll handler: `dist < bestDist`
where `bestDist` starts at `Infinity` (modelled as `none`). -/
def bestLt (d : Int) (bd : Option Int) : Bool :=
  match bd with
  | none => true
  | some b => decide (d < b)

/-- The `children.forEach` loop of `onScroll` (src/unnamed/part_000 lines
84-93): sweep the offsets, keeping the index of the strictly smallest
distance seen so far (`bestIdx` initially 0, `bestDist` initially
`Infinity`). -/
def bestScan (top : Int) : List Int → Nat → Nat → Option Int → Nat
  | [], _, bi, _ => bi
  | off :: rest, idx, bi, bd =>
      if bestLt (distTo top off) bd then
        bestScan top rest (idx + 1) idx (some (distTo top off))
      else
        bestScan top rest (idx + 1) bi bd

/-- The active-index computation of `onScroll`: the first index whose
offset minimises the absolute distance to the scroll position. -/
def bestIdx (offsets : List Int) (top : Int) : Nat :=
  bestScan top offsets 0 0 none

/-- Distance from the scroll position to the offset at index `j`
(out-of-range reads, never used under the length bounds, default to 0). -/
def distAtD (offsets : List Int) (top : Int) (j : Nat) : Int :=
  distTo top (offsets.getD j 0)

/-- Observable result of one `onScroll` run: the new active index and
whether the handler invoked `loadMore(false)`. -/
structure ScrollResult where
  activeIndex : Nat
  triggerLoad : Bool
deriving Repr, DecidableEq

/-- The scroll handler of src/unnamed/part_000 lines 79-101: an early
return when no items are rendered (active index unchanged, no load);
otherwise the nearest-offset index becomes active, and `loadMore(false)` is
invoked exactly when `hasMore && !loading && bestIdx >= children.length - 2`. -/
def onScroll (st : FeedState) (offsets : List Int) (top : Int)
    (activeIndex : Nat) : ScrollResult :=
  if offsets.length = 0 then
    ⟨activeIndex, false⟩
  else
    let b := bestIdx offsets top
    ⟨b, st.hasMore && !st.loading && decide ((offsets.length : Int) - 2 ≤ (b : Int))⟩

/-- A run of scroll events: each event carries the rendered offsets, the
scroll position, and the outcome any triggered `loadMore(false)` fetch
would resolve with.  The accumulator is the feed state, the active index,
and the number of `loadMore` requests issued so far. -/
def scrollSeq : FeedState × Nat × Nat → List (List Int × Int × FetchOutcome) →
    FeedState × Nat × Nat
  | s, [] => s
  | (st, ai, n), (offs, top, out) :: rest =>
      let r := onScroll st offs top ai
      if r.triggerLoad then
        scrollSeq ((loadMore false st out).1, r.activeIndex, n + 1) rest
      else
        scrollSeq (st, r.activeIndex, n) rest

/-- A post of the posts feed client (src/unnamed/part_001, type
`FeedPost`), reduced to its identity — the load path moves posts around
wholesale and never reads their fields. -/
structure FeedPost where
  id : String
deriving Repr, DecidableEq

/-- The state of `FeedClient` (src/unnamed/part_001): `posts`, `loading`,
`error`. -/
structure PostsState where
  posts : List FeedPost
  loading : Bool
  error : Option String
deriving Repr, DecidableEq

/-- Outcome of the `apiGet("/posts/feed")` call of `FeedClient`: the
normalised item list (`data.items || data.posts || data.data || []`), or a
thrown error whose message may be absent. -/
inductive PostsOutcome
  | success (items : List FeedPost)
  | failure (msg : Option String)
deriving Repr, DecidableEq

/-- The `load()` closure of `FeedClient` (src/unnamed/part_001 lines
79-101) resolving while the component's liveness flag is `mounted`:
`setLoading(true)` and `setError(null)` run before the await; every state
mutation after the await — `setPosts`, `setError`, and the `finally`'s
`setLoading(false)` — is guarded by `if (mounted)`. -/
def feedClientLoad (mounted : Bool) (st : PostsState) (outcome : PostsOutcome) :
    PostsState :=
  let st1 : PostsState := { st with loading := true, error := none }
  match outcome with
  | .success items =>
      let st2 := if mounted then { st1 with posts := items } else st1
      if mounted then { st2 with loading := false } else st2
  | .failure msg =>
      let st2 :=
        if mounted then
          { st1 with error := some (msg.getD "No se pudo cargar el feed.") }
        else st1
      if mounted then { st2 with loading := false } else st2

/-- The `loadMore` of src/unnamed/part_000 resolving while the component's
liveness is the first argument.  The source checks no liveness flag after
its await points — it has none — so every state update is applied whether
or not the component is still mounted, and the result does not depend on
that argument. -/
def loadMoreResolved (_mounted : Bool) (initial : Bool) (st : FeedState)
    (outcome : FetchOutcome) : FeedState :=
  (loadMore initial st outcome).1

/-! ### Helper lemmas -/

theorem likeToggle_id (r : Reel) : (likeToggle r).id = r.id := rfl

theorem likedVal_likeToggle (r : Reel) : likedVal (likeToggle r) = !likedVal r := rfl

theorem likesVal_likeToggle (r : Reel) :
    likesVal (likeToggle r) = max 0 (likesVal r + if likedVal r then -1 else 1) := rfl

theorem likeToggle_likeToggle_vals (r : Reel) (h0 : 0 ≤ likesVal r)
    (h1 : likedVal r = true → 1 ≤ likesVal r) :
    likesVal (likeToggle (likeToggle r)) = likesVal r ∧
    likedVal (likeToggle (likeToggle r)) = likedVal r := by
  cases hb : likedVal r with
  | false =>
      refine ⟨?_, ?_⟩
      · rw [likesVal_likeToggle (likeToggle r), likedVal_likeToggle, hb,
          likesVal_likeToggle r, hb]
        norm_num
        omega
      · rw [likedVal_likeToggle, likedVal_likeToggle, hb, Bool.not_not]
  | true =>
      have h1 := h1 hb
      refine ⟨?_, ?_⟩
      · rw [likesVal_likeToggle (likeToggle r), likedVal_likeToggle, hb,
          likesVal_likeToggle r, hb]
        norm_num
        omega
      · rw [likedVal_likeToggle, likedVal_likeToggle, hb, Bool.not_not]

theorem applyLike_applyLike (items : List Reel) (i : String) :
    applyLike (applyLike items i) i =
      items.map fun r => if r.id = i then likeToggle (likeToggle r) else r := by
  unfold applyLike
  rw [List.map_map]
  apply List.map_congr_left
  intro r _
  by_cases h : r.id = i
  · simp [Function.comp, h, likeToggle_id]
  · simp [Function.comp, h]

/-- C2 counterexample: an item the server reports as liked with a likes
count of 0.  The first toggle clamps the decrement at zero, so the second
toggle increments from 0 and ends at 1, not at the original 0: applying the
like-toggle transformation twice does not, in general, return `likesCount`
to its original value. -/
theorem like_double_toggle_counterexample :
    likesVal (likeToggle (likeToggle ⟨"a", some 0, some true⟩)) ≠
      likesVal (⟨"a", some 0, some true⟩ : Reel) := by decide

/-- C2 (amended): applying the like-toggle transformation twice in
succession returns `likesCount` and `viewerHasLiked` to their original
values, provided the pre-toggle state does not trip the zero clamp: the
count is non-negative, and at least 1 whenever the item is marked liked. -/
theorem like_double_toggle_restores (r : Reel) (h0 : 0 ≤ likesVal r)
    (h1 : likedVal r = true → 1 ≤ likesVal r) :
    likesVal (likeToggle (likeToggle r)) = likesVal r ∧
    likedVal (likeToggle (likeToggle r)) = likedVal r :=
  likeToggle_likeToggle_vals r h0 h1

/-- C2 witness: the double-toggle restoration evaluated at a concrete item
(not liked, 5 likes). -/
theorem like_double_toggle_restores_witness :
    likesVal (likeToggle (likeToggle ⟨"a", some 5, some false⟩)) =
      likesVal (⟨"a", some 5, some false⟩ : Reel) ∧
    likedVal (likeToggle (likeToggle ⟨"a", some 5, some false⟩)) =
      likedVal (⟨"a", some 5, some false⟩ : Reel) :=
  like_double_toggle_restores ⟨"a", some 5, some false⟩ (by decide) (by decide)

/-- C1 counterexample: a feed item the server reports as liked with a likes
count of 0.  The optimistic toggle clamps 0 - 1 at 0; when the confirming
POST fails, reapplying the formula yields likes count 1 — not the
pre-toggle value 0.  The rollback is not exact for every feed item. -/
theorem onLike_rollback_counterexample :
    (onLike ⟨true, false⟩ [⟨"a", some 0, some true⟩] "a"
        LikeOutcome.httpError).items.map (fun r => (likedVal r, likesVal r)) ≠
      [(true, 0)] := by decide

/-- C1 (amended): when the action passes the auth guard and the confirming
POST fails, `onLike` applies the negation/increment formula exactly once
more on top of the optimistic apply (one extra toggle), and — provided the
targeted item's pre-toggle state does not trip the zero clamp (count
non-negative, and at least 1 when marked liked) — every item's `likesCount`
and `viewerHasLiked` values end at their exact pre-toggle values. -/
theorem onLike_failure_rollback (a : AuthCtx) (items : List Reel)
    (reelId : String) (outcome : LikeOutcome) (hauth : requireAuth a = false)
    (hfail : outcome ≠ LikeOutcome.ok)
    (hcons : ∀ r ∈ items, r.id = reelId →
      0 ≤ likesVal r ∧ (likedVal r = true → 1 ≤ likesVal r)) :
    (onLike a items reelId outcome).items =
      applyLike (applyLike items reelId) reelId ∧
    (onLike a items reelId outcome).items.map
        (fun r => (r.id, likedVal r, likesVal r)) =
      items.map (fun r => (r.id, likedVal r, likesVal r)) ∧
    (onLike a items reelId outcome).requestIssued = true := by
  have hres : onLike a items reelId outcome =
      ⟨applyLike (applyLike items reelId) reelId, true, false⟩ := by
    cases outcome with
    | ok => exact absurd rfl hfail
    | httpError => simp [onLike, hauth]
    | transportError => simp [onLike, hauth]
  rw [hres]
  refine ⟨rfl, ?_, rfl⟩
  rw [applyLike_applyLike, List.map_map]
  apply List.map_congr_left
  intro r hr
  by_cases h : r.id = reelId
  · obtain ⟨h0, h1⟩ := hcons r hr h
    obtain ⟨e3, e4⟩ := likeToggle_likeToggle_vals r h0 h1
    simp [Function.comp, h, likeToggle_id, e3, e4]
  · simp [Function.comp, h]

/-- C1 witness: the amended rollback property evaluated at the spec's own
scenario — item "x", not liked, count 5, confirming request fails. -/
theorem onLike_failure_rollback_witness :
    (onLike ⟨true, false⟩ [⟨"x", some 5, some false⟩] "x"
        LikeOutcome.httpError).items.map
        (fun r => (r.id, likedVal r, likesVal r)) =
      ([⟨"x", some 5, some false⟩] : List Reel).map
        (fun r => (r.id, likedVal r, likesVal r)) ∧
    (onLike ⟨true, false⟩ [⟨"x", some 5, some false⟩] "x"
        LikeOutcome.httpError).requestIssued = true :=
  ⟨(onLike_failure_rollback ⟨true, false⟩ [⟨"x", some 5, some false⟩] "x"
      LikeOutcome.httpError (by decide) (by decide) (by decide)).2.1,
   (onLike_failure_rollback ⟨true, false⟩ [⟨"x", some 5, some false⟩] "x"
      LikeOutcome.httpError (by decide) (by decide) (by decide)).2.2⟩

/-- C4: when a `loadMore` fetch fails (non-2xx response or transport
error), the already-loaded item sequence and the cursor are left untouched,
an error message is surfaced, `hasMore` is set to false, and the invocation
issued exactly its one original request (the model performs no retry). -/
theorem loadMore_failure_preserves_items (initial : Bool) (st : FeedState)
    (msg : Option String) :
    (loadMore initial st (FetchOutcome.failure msg)).1.items = st.items ∧
    (loadMore initial st (FetchOutcome.failure msg)).1.cursor = st.cursor ∧
    (loadMore initial st (FetchOutcome.failure msg)).1.err.isSome = true ∧
    (loadMore initial st (FetchOutcome.failure msg)).1.hasMore = false ∧
    (loadMore initial st (FetchOutcome.failure msg)).2 = true := by
  simp [loadMore]

/-- C10 (implicit): a successful page load that returns zero items forces
`hasMore` to false, regardless of the response's `hasMore` flag or cursor,
for both initial and incremental loads. -/
theorem loadMore_empty_page_stops (initial : Bool) (st : FeedState)
    (c : Option String) (hm : Option Bool) :
    (loadMore initial st (FetchOutcome.success ⟨[], c, hm⟩)).1.hasMore = false := by
  simp [loadMore]

/-- C6 counterexample: a successful non-initial load whose response carries
an explicit hasMore = true (and a non-null cursor) but zero items.  The
code sets the more-available flag to false, while the claim says it equals
the response's explicit hasMore boolean, true. -/
theorem loadMore_hasMore_counterexample :
    (loadMore false ⟨[⟨"a", none, none⟩], false, some "p", true, none⟩
        (FetchOutcome.success ⟨[], some "c", some true⟩)).1.hasMore = false := by
  decide

/-- C6 (amended): after every successful page load, the more-available flag
is the conjunction of (a) the response's explicit `hasMore` boolean when
present, falling back to the cursor's truthiness (non-null and non-empty)
when absent, and (b) the returned page being non-empty. -/
theorem loadMore_success_hasMore (initial : Bool) (st : FeedState)
    (data : FeedResponse) :
    (loadMore initial st (FetchOutcome.success data)).1.hasMore =
      (data.hasMore.getD (jsTruthyStr data.nextCursor) && !data.items.isEmpty) := by
  obtain ⟨ditems, dc, dhm⟩ := data
  cases ditems <;> simp [loadMore]

/-- C5 counterexample: an unauthenticated viewer invokes the like action
while session resolution is still pending (`meLoading = true`).  The claim
says the action is deferred/ignored with no mutation and no request, but
`requireAuth` returns false in this case and `onLike` proceeds: the POST is
issued and the optimistic mutation is applied. -/
theorem onLike_pending_session_counterexample :
    (onLike ⟨false, true⟩ [⟨"a", some 0, some false⟩] "a"
        LikeOutcome.ok).requestIssued = true ∧
    (onLike ⟨false, true⟩ [⟨"a", some 0, some false⟩] "a"
        LikeOutcome.ok).items ≠ [⟨"a", some 0, some false⟩] := by decide

/-- C5 (amended): when the viewer is unauthenticated and session resolution
has finished, `onLike` redirects to the sign-in path, mutates nothing and
issues no request; while session resolution is still pending, the guard
does not fire and the action proceeds exactly as for an authenticated
viewer (optimistic mutation and request included). -/
theorem onLike_auth_gate (items : List Reel) (reelId : String)
    (outcome : LikeOutcome) :
    (onLike ⟨false, false⟩ items reelId outcome).redirectedToLogin = true ∧
    (onLike ⟨false, false⟩ items reelId outcome).items = items ∧
    (onLike ⟨false, false⟩ items reelId outcome).requestIssued = false ∧
    onLike ⟨false, true⟩ items reelId outcome =
      onLike ⟨true, false⟩ items reelId outcome := by
  refine ⟨rfl, rfl, rfl, ?_⟩
  rfl

/-- C3 counterexample: the `loadMore` function itself contains no guard on
`loading` or `hasMore`.  Invoked in a state with `loading = true` and
`hasMore = false`, it still issues the network request and, on a successful
response, appends the returned item — the claimed no-op does not hold for
direct invocations of `loadMore`. -/
theorem loadMore_unguarded_counterexample :
    (loadMore false ⟨[], true, none, false, none⟩
        (FetchOutcome.success ⟨[⟨"n", none, none⟩], some "c", some true⟩)).2 = true ∧
    (loadMore false ⟨[], true, none, false, none⟩
        (FetchOutcome.success ⟨[⟨"n", none, none⟩], some "c", some true⟩)).1.items ≠
      [] := by decide

theorem onScroll_no_trigger (st : FeedState) (offs : List Int) (top : Int)
    (ai : Nat) (h : st.loading = true ∨ st.hasMore = false) :
    (onScroll st offs top ai).triggerLoad = false := by
  rcases h with h | h <;> unfold onScroll <;> split <;> simp [h]

/-- C3 (amended): the no-op guard lives at the call site, in the scroll
handler — `loadMore` itself is unguarded.  While `loading` is true or
more-available is false, no sequence of scroll events ever invokes
`loadMore`: the request count stays at zero and the whole feed state (items
and cursor included) is unchanged. -/
theorem scroll_noop_while_unavailable (st : FeedState)
    (h : st.loading = true ∨ st.hasMore = false) :
    ∀ (evs : List (List Int × Int × FetchOutcome)) (ai n : Nat),
      (scrollSeq (st, ai, n) evs).1 = st ∧ (scrollSeq (st, ai, n) evs).2.2 = n := by
  intro evs
  induction evs with
  | nil => exact fun ai n => ⟨rfl, rfl⟩
  | cons ev rest ih =>
      intro ai n
      obtain ⟨offs, top, out⟩ := ev
      have htrig := onScroll_no_trigger st offs top ai h
      simp only [scrollSeq, htrig, Bool.false_eq_true, if_false]
      exact ih (onScroll st offs top ai).activeIndex n

/-- C3 witness: a state with more-available = false, one scroll event whose
fetch (were it issued) would return a fresh item; the state is unchanged
and no request fires. -/
theorem scroll_noop_while_unavailable_witness :
    (scrollSeq (⟨[], false, none, false, none⟩, 0, 0)
        [([0, 100], 100,
          FetchOutcome.success ⟨[⟨"n", none, none⟩], some "c", some true⟩)]).1 =
      (⟨[], false, none, false, none⟩ : FeedState) ∧
    (scrollSeq (⟨[], false, none, false, none⟩, 0, 0)
        [([0, 100], 100,
          FetchOutcome.success ⟨[⟨"n", none, none⟩], some "c", some true⟩)]).2.2 =
      0 :=
  scroll_noop_while_unavailable ⟨[], false, none, false, none⟩ (Or.inr rfl)
    [([0, 100], 100, FetchOutcome.success ⟨[⟨"n", none, none⟩], some "c", some true⟩)]
    0 0

theorem applyLike_nonneg (items : List Reel) (i : String)
    (h : ∀ r ∈ items, 0 ≤ likesVal r) :
    ∀ r ∈ applyLike items i, 0 ≤ likesVal r := by
  intro r hr
  rw [applyLike, List.mem_map] at hr
  obtain ⟨s, hs, rfl⟩ := hr
  by_cases hid : s.id = i
  · rw [if_pos hid, likesVal_likeToggle]
    exact le_max_left _ _
  · rw [if_neg hid]
    exact h s hs

/-- C8: starting from any item list whose effective likes counts are
non-negative, every sequence of like toggles (optimistic applies and
rollbacks both run the same `applyLike` map) keeps every item's likes count
non-negative; since this holds for every sequence, it holds for every
prefix, i.e. at all times. -/
theorem likes_never_negative (items : List Reel) (seq : List String)
    (h : ∀ r ∈ items, 0 ≤ likesVal r) :
    ∀ r ∈ List.foldl applyLike items seq, 0 ≤ likesVal r := by
  induction seq generalizing items with
  | nil => exact h
  | cons i rest ih =>
      intro r hr
      rw [List.foldl_cons] at hr
      exact ih (applyLike items i) (applyLike_nonneg items i h) r hr

/-- C8 witness: three successive toggles on a single item starting at
(not liked, 2 likes) end at (liked, 3 likes), whose count the theorem
confirms non-negative. -/
theorem likes_never_negative_witness :
    (0 : Int) ≤ likesVal ⟨"a", some 3, some true⟩ :=
  likes_never_negative [⟨"a", some 2, some false⟩] ["a", "a", "a"] (by decide)
    ⟨"a", some 3, some true⟩ (by decide)

theorem bestScan_spec (top : Int) (D : Nat → Int) :
    ∀ (l : List Int) (idx bi : Nat) (d : Int),
      (∀ m, m < l.length → D (idx + m) = distTo top (l.getD m 0)) →
      bi < idx → d = D bi →
      (∀ j, j < idx → d ≤ D j) →
      (∀ j, j < idx → D j = d → bi ≤ j) →
      bestScan top l idx bi (some d) < idx + l.length ∧
      (∀ j, j < idx + l.length →
        D (bestScan top l idx bi (some d)) ≤ D j ∧
        (D j = D (bestScan top l idx bi (some d)) →
          bestScan top l idx bi (some d) ≤ j)) := by
  intro l
  induction l with
  | nil =>
      intro idx bi d hD hbi hd hmin htie
      simp only [bestScan, List.length_nil, Nat.add_zero]
      refine ⟨hbi, fun j hj => ⟨?_, fun he => ?_⟩⟩
      · rw [← hd]; exact hmin j hj
      · exact htie j hj (by rw [he, ← hd])
  | cons off rest ih =>
      intro idx bi d hD hbi hd hmin htie
      have hD0 : D idx = distTo top off := by
        have h0 := hD 0 (by simp)
        simpa using h0
      have hD' : ∀ m, m < rest.length →
          D (idx + 1 + m) = distTo top (rest.getD m 0) := by
        intro m hm
        have h2 := hD (m + 1) (by simp [List.length_cons]; omega)
        have he : idx + (m + 1) = idx + 1 + m := by omega
        rw [he] at h2
        simpa using h2
      have hlen : idx + (off :: rest).length = idx + 1 + rest.length := by
        simp [List.length_cons]; omega
      by_cases hlt : distTo top off < d
      · have hred : bestScan top (off :: rest) idx bi (some d) =
            bestScan top rest (idx + 1) idx (some (distTo top off)) := by
          simp [bestScan, bestLt, hlt]
        have hres := ih (idx + 1) idx (distTo top off) hD' (by omega) hD0.symm
          (fun j hj => by
            have hc : j < idx ∨ j = idx := by omega
            rcases hc with hj1 | hj1
            · exact le_of_lt (lt_of_lt_of_le hlt (hmin j hj1))
            · rw [hj1, hD0])
          (fun j hj hje => by
            have hc : j < idx ∨ j = idx := by omega
            rcases hc with hj1 | hj1
            · exact absurd (hje ▸ hmin j hj1) (by omega)
            · omega)
        rw [hred, hlen]
        exact hres
      · have hred : bestScan top (off :: rest) idx bi (some d) =
            bestScan top rest (idx + 1) bi (some d) := by
          simp [bestScan, bestLt, hlt]
        have hres := ih (idx + 1) bi d hD' (by omega) hd
          (fun j hj => by
            have hc : j < idx ∨ j = idx := by omega
            rcases hc with hj1 | hj1
            · exact hmin j hj1
            · rw [hj1, hD0]; omega)
          (fun j hj hje => by
            have hc : j < idx ∨ j = idx := by omega
            rcases hc with hj1 | hj1
            · exact htie j hj1 hje
            · omega)
        rw [hred, hlen]
        exact hres

theorem bestIdx_spec (offsets : List Int) (top : Int) (hne : offsets ≠ []) :
    bestIdx offsets top < offsets.length ∧
    ∀ j, j < offsets.length →
      distAtD offsets top (bestIdx offsets top) ≤ distAtD offsets top j ∧
      (distAtD offsets top j = distAtD offsets top (bestIdx offsets top) →
        bestIdx offsets top ≤ j) := by
  cases offsets with
  | nil => exact absurd rfl hne
  | cons off rest =>
      have hred : bestIdx (off :: rest) top =
          bestScan top rest 1 0 (some (distTo top off)) := by
        simp [bestIdx, bestScan, bestLt]
      have hD : ∀ m, m < rest.length →
          distAtD (off :: rest) top (1 + m) = distTo top (rest.getD m 0) := by
        intro m hm
        have he : 1 + m = m + 1 := by omega
        rw [he]
        simp [distAtD]
      have hspec := bestScan_spec top (distAtD (off :: rest) top) rest 1 0
        (distTo top off) hD (by omega) (by simp [distAtD])
        (fun j hj => by
          have hj0 : j = 0 := by omega
          subst hj0
          simp [distAtD])
        (fun j _ _ => by omega)
      rw [hred]
      constructor
      · have hb := hspec.1
        simp only [List.length_cons]
        omega
      · intro j hj
        exact hspec.2 j (by simp only [List.length_cons] at hj; omega)

theorem bestIdx_exact (offsets : List Int) (top : Int) (hnd : offsets.Nodup)
    (k : Nat) (hk : k < offsets.length) (htop : offsets.getD k 0 = top) :
    bestIdx offsets top = k := by
  have hne : offsets ≠ [] := by
    intro h
    rw [h] at hk
    simp at hk
  obtain ⟨hb, hmin⟩ := bestIdx_spec offsets top hne
  have hdk : distAtD offsets top k = 0 := by
    unfold distAtD distTo
    rw [htop]
    simp
  have h1 : distAtD offsets top (bestIdx offsets top) ≤ 0 := by
    rw [← hdk]
    exact (hmin k hk).1
  have h2 : 0 ≤ distAtD offsets top (bestIdx offsets top) := abs_nonneg _
  have h4 : offsets.getD (bestIdx offsets top) 0 = top := by
    have h3 : |offsets.getD (bestIdx offsets top) 0 - top| = 0 := le_antisymm h1 h2
    have h5 := abs_eq_zero.mp h3
    omega
  have hget : offsets.get ⟨bestIdx offsets top, hb⟩ = offsets.get ⟨k, hk⟩ := by
    have e1 := List.getD_eq_getElem offsets 0 hb
    have e2 := List.getD_eq_getElem offsets 0 hk
    rw [List.get_eq_getElem, List.get_eq_getElem, ← e1, ← e2, h4, htop]
  have hfin := (hnd.get_inj_iff).mp hget
  exact congrArg Fin.val hfin

/-- C7 counterexample: two rendered items sharing offset 0, scroll position
0, k = 1.  The claim says a scroll position exactly at item 1's offset
resolves the active index to 1, but the strict-less-than sweep keeps the
first index with that distance: the active index is 0. -/
theorem onScroll_exact_counterexample :
    (onScroll ⟨[], false, none, true, none⟩ [0, 0] 0 0).activeIndex ≠ 1 := by
  decide

/-- C7 (amended): on every scroll event with at least one rendered item,
the active index is in range and is the least index whose offset minimises
the absolute distance to the scroll position (ties to the lowest index
under the strict comparison); consequently, when the offsets are pairwise
distinct, a scroll position exactly at item k's offset resolves the active
index to k. -/
theorem onScroll_active_nearest (st : FeedState) (offsets : List Int)
    (top : Int) (ai : Nat) (hne : offsets ≠ []) :
    (onScroll st offsets top ai).activeIndex < offsets.length ∧
    (∀ j, j < offsets.length →
      distAtD offsets top (onScroll st offsets top ai).activeIndex ≤
        distAtD offsets top j ∧
      (distAtD offsets top j =
          distAtD offsets top (onScroll st offsets top ai).activeIndex →
        (onScroll st offsets top ai).activeIndex ≤ j)) ∧
    (offsets.Nodup → ∀ k, k < offsets.length →
      offsets.getD k 0 = top → (onScroll st offsets top ai).activeIndex = k) := by
  have hact : (onScroll st offsets top ai).activeIndex = bestIdx offsets top := by
    unfold onScroll
    rw [if_neg (by simp [List.length_eq_zero, hne])]
  rw [hact]
  obtain ⟨hb, hmin⟩ := bestIdx_spec offsets top hne
  exact ⟨hb, hmin, fun hnd k hk htop => bestIdx_exact offsets top hnd k hk htop⟩

/-- C7 witness: offsets 10 and 20 (distinct), scroll position exactly at
item 1's offset; the active index resolves to 1. -/
theorem onScroll_active_nearest_witness :
    (onScroll ⟨[], false, none, true, none⟩ [10, 20] 20 0).activeIndex = 1 :=
  (onScroll_active_nearest ⟨[], false, none, true, none⟩ [10, 20] 20 0
      (by decide)).2.2 (by decide) 1 (by decide) (by decide)

/-- C9: the claim fails on the code.  First conjunct: `loadMore` in
src/unnamed/part_000 has no liveness flag, so a fetch resolving after
teardown (`mounted = false`) still applies its state mutations — the state
changes.  Second conjunct: the posts feed client of src/unnamed/part_001,
whose every post-await mutation is guarded by `if (mounted)`, leaves its
state exactly as it stood at the await point (loading already true, error
cleared) when the fetch resolves after teardown. -/
theorem teardown_liveness_divergence :
    loadMoreResolved false false ⟨[], false, none, true, none⟩
        (FetchOutcome.success ⟨[⟨"r", none, none⟩], none, none⟩) ≠
      (⟨[], false, none, true, none⟩ : FeedState) ∧
    feedClientLoad false ⟨[], false, none⟩ (PostsOutcome.success [⟨"p"⟩]) =
      (⟨[], true, none⟩ : PostsState) := by decide
